import Mathlib

set_option maxHeartbeats 1000000
set_option linter.unusedVariables false

/-!
Shallow embedding of the background coordinator of the TheOneSuspender
browser extension: the shared state module (state.js under src/unnamed)
and the background message router and event listeners
(src/src/background/listeners.js).  Pure data is embedded directly;
host interactions (storage reads and writes, tab queries, message
broadcasts, timers) are passed in explicitly as oracle arguments, and
stateful code becomes explicit state passing.
-/

namespace TheOneSuspender

/-- The chrome.windows.WINDOW_ID_NONE sentinel, the value -1 in Chrome. -/
def WINDOW_ID_NONE : Int := -1

/-! ## Association list model of the activeTabsByWindow Map -/

/-- Lookup in an association list, mirroring Map.get (undefined becomes none). -/
def mapGet : List (Int × Int) → Int → Option Int
  | [], _ => none
  | p :: rest, k => if p.1 = k then some p.2 else mapGet rest k

/-- Map.set semantics: update the entry with the key in place when present,
keeping its position, else append a fresh entry at the end. -/
def mapSet : List (Int × Int) → Int → Int → List (Int × Int)
  | [], k, v => [(k, v)]
  | p :: rest, k, v => if p.1 = k then (k, v) :: rest else p :: mapSet rest k v

/-- Map.delete semantics: drop the entry with the key.  The states built by
set and delete from the empty map never hold a duplicate key, so removing
every occurrence coincides with Map.delete. -/
def mapDelete : List (Int × Int) → Int → List (Int × Int)
  | [], _ => []
  | p :: rest, k => if p.1 = k then mapDelete rest k else p :: mapDelete rest k

theorem mapGet_mapSet (m : List (Int × Int)) (k v k2 : Int) :
    mapGet (mapSet m k v) k2 = if k = k2 then some v else mapGet m k2 := by
  induction m with
  | nil => simp only [mapSet, mapGet]
  | cons p rest ih =>
    by_cases h1 : p.1 = k
    · simp only [mapSet, h1, if_pos, mapGet]
      by_cases h2 : k = k2 <;> simp [mapGet, h1, h2]
    · simp only [mapSet, h1, if_neg, not_false_iff, mapGet]
      by_cases h3 : p.1 = k2
      · have : ¬ k = k2 := fun hk => h1 (hk ▸ h3)
        simp [mapGet, h3, this]
      · simp [mapGet, h3, ih]

theorem mapGet_mapDelete (m : List (Int × Int)) (k k2 : Int) :
    mapGet (mapDelete m k) k2 = if k = k2 then none else mapGet m k2 := by
  induction m with
  | nil => simp [mapDelete, mapGet]
  | cons p rest ih =>
    by_cases h2 : k = k2
    · subst h2
      by_cases h1 : p.1 = k
      · simpa [mapDelete, h1] using ih
      · simpa [mapDelete, mapGet, h1] using ih
    · have h2s : ¬ k2 = k := fun h => h2 h.symm
      by_cases h1 : p.1 = k
      · have h3 : ¬ p.1 = k2 := fun hp => h2 (h1 ▸ hp)
        simp [mapDelete, mapGet, h1, h2, h2s, h3, ih]
      · by_cases h3 : p.1 = k2 <;>
          simp [mapDelete, mapGet, h1, h2, h2s, h3, ih]

/-! ## state.js window focus state -/

/-- The mutable module state of state.js that the window tracking claims
touch: the window id to active tab id map, and the last focused window id. -/
structure WinState where
  activeTabsByWindow : List (Int × Int)
  lastFocusedWindowId : Int
deriving Repr, DecidableEq

/-- The module initial state: an empty map. -/
def initialWinState : WinState := ⟨[], WINDOW_ID_NONE⟩

/-- state.js setActiveTabForWindow. -/
def setActiveTabForWindow (s : WinState) (windowId tabId : Int) : WinState :=
  { s with activeTabsByWindow := mapSet s.activeTabsByWindow windowId tabId }

/-- state.js getActiveTabForWindow. -/
def getActiveTabForWindow (s : WinState) (windowId : Int) : Option Int :=
  mapGet s.activeTabsByWindow windowId

/-- state.js removeWindowTracking: delete the entry of the window and reset
lastFocusedWindowId to the sentinel when it pointed at the removed window. -/
def removeWindowTracking (s : WinState) (windowId : Int) : WinState :=
  let m := mapDelete s.activeTabsByWindow windowId
  if s.lastFocusedWindowId = windowId then
    { activeTabsByWindow := m, lastFocusedWindowId := WINDOW_ID_NONE }
  else
    { s with activeTabsByWindow := m }

/-- state.js updateLastFocusedWindow: setting the none sentinel is a no-op. -/
def updateLastFocusedWindow (s : WinState) (windowId : Int) : WinState :=
  if windowId = WINDOW_ID_NONE then s
  else { s with lastFocusedWindowId := windowId }

/-- state.js cleanupStateReferences, with the live window id list obtained
from chrome.windows.getAll passed in: delete every tracked window id absent
from the live list, and reset lastFocusedWindowId when it is neither the
sentinel nor a live window. -/
def cleanupStateReferences (liveWindowIds : List Int) (s : WinState) : WinState :=
  let m := s.activeTabsByWindow.filter (fun p => liveWindowIds.contains p.1)
  let lf :=
    if s.lastFocusedWindowId != WINDOW_ID_NONE
        && !(liveWindowIds.contains s.lastFocusedWindowId) then
      WINDOW_ID_NONE
    else s.lastFocusedWindowId
  { activeTabsByWindow := m, lastFocusedWindowId := lf }

/-- Claim C5: the reconciliation sweep keeps exactly the tracked entries
whose window id is in the live set, with kept values untouched, and the
last focused window survives exactly when live, being reset to the none
sentinel otherwise; instantiated at the concrete example of the spec, live
set containing 1 and 3 against the tracked map 1 to 10, 2 to 20, 3 to 30. -/
theorem cleanupStateReferences_correct (live : List Int) (s : WinState) :
    (cleanupStateReferences live s).activeTabsByWindow
        = s.activeTabsByWindow.filter (fun p => live.contains p.1) ∧
    (cleanupStateReferences live s).lastFocusedWindowId
        = (if live.contains s.lastFocusedWindowId then s.lastFocusedWindowId
           else WINDOW_ID_NONE) ∧
    (cleanupStateReferences [1, 3] ⟨[(1, 10), (2, 20), (3, 30)], 2⟩).activeTabsByWindow
        = [(1, 10), (3, 30)] ∧
    (cleanupStateReferences [1, 3] ⟨[(1, 10), (2, 20), (3, 30)], 2⟩).lastFocusedWindowId
        = WINDOW_ID_NONE := by
  refine ⟨rfl, ?_, by decide, by decide⟩
  by_cases hc : s.lastFocusedWindowId ∈ live
  · simp [cleanupStateReferences, hc]
  · by_cases hn : s.lastFocusedWindowId = WINDOW_ID_NONE
    · simp [cleanupStateReferences, hc, hn]
    · simp [cleanupStateReferences, hc, hn]

/-- Claim C7: removeWindowTracking drops the tracking entry of the removed
window, leaves the entry of every other window unchanged, and resets
lastFocusedWindowId to the none sentinel exactly when it pointed at the
removed window, being left unchanged otherwise. -/
theorem removeWindowTracking_correct (s : WinState) (w w2 : Int) :
    getActiveTabForWindow (removeWindowTracking s w) w2
        = (if w = w2 then none else getActiveTabForWindow s w2) ∧
    (removeWindowTracking s w).lastFocusedWindowId
        = (if s.lastFocusedWindowId = w then WINDOW_ID_NONE
           else s.lastFocusedWindowId) := by
  by_cases hl : s.lastFocusedWindowId = w <;>
    simp [removeWindowTracking, getActiveTabForWindow, hl, mapGet_mapDelete]

/-! ## Claim C6: activation event sequences -/

/-- The events that mutate the active tab tracking: a tab activation records
the active tab of its window (listeners.js handleTabActivated calls
setActiveTabForWindow before any await), and a window removal drops the
tracking entry (listeners.js handleWindowRemoval calls removeWindowTracking). -/
inductive ActivationEv
  | activate (windowId tabId : Int)
  | removeWindow (windowId : Int)
deriving Repr, DecidableEq

/-- Apply one activation related event to the window state, as the source
handlers do through the state.js API. -/
def applyActivationEv (s : WinState) (e : ActivationEv) : WinState :=
  match e with
  | .activate w t => setActiveTabForWindow s w t
  | .removeWindow w => removeWindowTracking s w

/-- One step of the specification view of the tracking map for a fixed
window: an activation of the window overwrites, a removal clears, any event
for a different window is ignored. -/
def specStep (w : Int) (acc : Option Int) (e : ActivationEv) : Option Int :=
  match e with
  | .activate w2 t => if w2 = w then some t else acc
  | .removeWindow w2 => if w2 = w then none else acc

/-- Specification side definition, following the claim wording: the tab id
carried by the most recent activation event for the window, absent when the
window was never activated or was removed with no activation after it. -/
def mostRecentActivationSpec (w : Int) (evs : List ActivationEv) : Option Int :=
  evs.foldl (specStep w) none

theorem getActiveTab_foldl (evs : List ActivationEv) (s : WinState) (w : Int) :
    getActiveTabForWindow (evs.foldl applyActivationEv s) w
      = evs.foldl (specStep w) (getActiveTabForWindow s w) := by
  induction evs generalizing s with
  | nil => rfl
  | cons e rest ih =>
    cases e with
    | activate w2 t =>
      simp only [List.foldl_cons, applyActivationEv, ih, specStep]
      congr 1
      simp [setActiveTabForWindow, getActiveTabForWindow, mapGet_mapSet]
    | removeWindow w2 =>
      simp only [List.foldl_cons, applyActivationEv, ih, specStep]
      congr 1
      by_cases hl : s.lastFocusedWindowId = w2 <;>
        simp [removeWindowTracking, getActiveTabForWindow, hl, mapGet_mapDelete]

/-- Claim C6: for any sequence of activation and window removal events
applied to the initially empty state, the tracked active tab of a window
equals the tab id of the most recent activation event for that window, and
is absent when the window was never activated or was removed with no later
activation. -/
theorem activeTabFor_mostRecent (evs : List ActivationEv) (w : Int) :
    getActiveTabForWindow (evs.foldl applyActivationEv initialWinState) w
      = mostRecentActivationSpec w evs := by
  rw [getActiveTab_foldl]
  rfl

/-! ## state.js bulk operation watchdog and durable flags -/

/-- BULK_OP_TIMEOUT_MS from state.js: ten minutes. -/
def BULK_OP_TIMEOUT_MS : Nat := 10 * 60 * 1000

/-- State touched by the bulk operation watchdog: whether bulkOpTimeoutId
holds a timeout, the wall clock instant that timeout fires at, the durable
flag in chrome.storage.local, and how many reset notifications have been
attempted through chrome.runtime.sendMessage. -/
structure BulkState where
  timerSet : Bool
  timerDeadline : Nat
  stored : Bool
  broadcastAttempts : Nat
deriving Repr, DecidableEq

/-- Body of state.js setBulkOpRunning before its catch: clear any existing
timeout, persist the coerced flag value, and when setting to true arm the
ten minute timeout.  The writeOk oracle is the outcome of the awaited
storage write; on failure the exception escapes to the catch after the old
timeout was already cleared, so nothing later in the body runs. -/
def setBulkOpRunningTry (now : Nat) (value writeOk : Bool) (s : BulkState) :
    Except String BulkState :=
  let s1 := { s with timerSet := false }
  if writeOk then
    let s2 := { s1 with stored := value }
    if value then
      .ok { s2 with timerSet := true, timerDeadline := now + BULK_OP_TIMEOUT_MS }
    else
      .ok s2
  else
    .error "storage write failed"

/-- state.js setBulkOpRunning: the catch swallows the storage failure,
leaving the state as it was at the instant the write threw. -/
def setBulkOpRunning (now : Nat) (value writeOk : Bool) (s : BulkState) : BulkState :=
  match setBulkOpRunningTry now value writeOk s with
  | .ok s2 => s2
  | .error _ => { s with timerSet := false }

/-- The setTimeout callback armed by setBulkOpRunning true, run by the host
when the deadline is reached with the timeout still set: force the durable
flag to false, then attempt exactly one reset broadcast; a delivery failure
(sendOk false) is swallowed by the inner catch so the resulting state does
not depend on sendOk, while a storage failure jumps to the outer catch and
skips the broadcast entirely. -/
def bulkOpTimeoutFire (writeOk sendOk : Bool) (s : BulkState) : BulkState :=
  if writeOk then
    { s with stored := false, timerSet := false,
             broadcastAttempts := s.broadcastAttempts + 1 }
  else
    s

/-- Claim C1: a call setting the bulk flag true cancels any previously armed
timeout and arms a fresh one whose deadline is exactly ten minutes from now,
persists the flag true while attempting no broadcast itself, and when that
timeout then fires with no intervening clearing call the durable flag is
forced to false with exactly one reset broadcast attempt, the state being
identical whether or not the broadcast delivery succeeds. -/
theorem setBulkOpRunning_watchdog (s : BulkState) (now : Nat) (sendOk : Bool) :
    (setBulkOpRunning now true true s).timerSet = true ∧
    (setBulkOpRunning now true true s).timerDeadline = now + 10 * 60 * 1000 ∧
    (setBulkOpRunning now true true s).stored = true ∧
    (setBulkOpRunning now true true s).broadcastAttempts = s.broadcastAttempts ∧
    (bulkOpTimeoutFire true sendOk (setBulkOpRunning now true true s)).stored = false ∧
    (bulkOpTimeoutFire true sendOk (setBulkOpRunning now true true s)).timerSet = false ∧
    (bulkOpTimeoutFire true sendOk (setBulkOpRunning now true true s)).broadcastAttempts
        = s.broadcastAttempts + 1 ∧
    bulkOpTimeoutFire true sendOk (setBulkOpRunning now true true s)
        = bulkOpTimeoutFire true true (setBulkOpRunning now true true s) := by
  cases sendOk <;>
    simp [setBulkOpRunning, setBulkOpRunningTry, bulkOpTimeoutFire, BULK_OP_TIMEOUT_MS]

/-- state.js getBulkOpRunning, with the outcome of the awaited
chrome.storage.local.get passed in: ok none is an unset key (the double
negation of undefined gives false), ok some v is the coerced stored value,
and the catch turns a storage failure into false. -/
def getBulkOpRunning (read : Except String (Option Bool)) : Bool :=
  match read with
  | .ok (some v) => v
  | .ok none => false
  | .error _ => false

/-- state.js getFaviconRefreshRunning, the same shape for the other key. -/
def getFaviconRefreshRunning (read : Except String (Option Bool)) : Bool :=
  match read with
  | .ok (some v) => v
  | .ok none => false
  | .error _ => false

/-- Body of state.js setFaviconRefreshRunning before its catch: persist the
coerced value, or raise when the storage write fails. -/
def setFaviconRefreshRunningTry (writeOk value : Bool) :
    Except String (Option Bool) :=
  if writeOk then .ok (some value) else .error "storage write failed"

/-- state.js setFaviconRefreshRunning: the catch swallows write failures,
leaving the durable value as it was. -/
def setFaviconRefreshRunning (writeOk value : Bool) (stored : Option Bool) :
    Option Bool :=
  match setFaviconRefreshRunningTry writeOk value with
  | .ok st => st
  | .error _ => stored

/-- Claim C10: the durable flag accessors are total at the public interface.
Both getters return false on a failed storage read and on an unset key and
the coerced stored value otherwise, and both setters come back normally
instead of propagating a failed write: the favicon setter leaves the durable
value untouched, and the bulk setter has only cleared its timeout by the
instant the write threw. -/
theorem durableFlagAccessors_total (e : String) (v value : Bool)
    (stored : Option Bool) (now : Nat) (s : BulkState) :
    getBulkOpRunning (.error e) = false ∧
    getBulkOpRunning (.ok none) = false ∧
    getBulkOpRunning (.ok (some v)) = v ∧
    getFaviconRefreshRunning (.error e) = false ∧
    getFaviconRefreshRunning (.ok none) = false ∧
    getFaviconRefreshRunning (.ok (some v)) = v ∧
    setFaviconRefreshRunning false value stored = stored ∧
    setFaviconRefreshRunning true value stored = some value ∧
    setBulkOpRunning now value false s = { s with timerSet := false } := by
  refine ⟨rfl, rfl, rfl, rfl, rfl, rfl, rfl, rfl, ?_⟩
  simp [setBulkOpRunning, setBulkOpRunningTry]

/-! ## Claim C3: listeners.js handleTabRemoved -/

/-- State visible to handleTabRemoved: the window tracking map together with
the pending suspension bookkeeping held by the scheduling collaborator. -/
structure RemovalState where
  activeTabsByWindow : List (Int × Int)
  pendingSuspend : List Int
deriving Repr, DecidableEq

/-- The removeInfo record of the chrome tabs onRemoved event. -/
structure RemoveInfo where
  windowId : Int
  isWindowClosing : Bool
deriving Repr, DecidableEq

/-- listeners.js handleTabRemoved.  Scheduling.removeTabSuspendTime is
modelled from the spec (scheduling.js is not under src): it unconditionally
purges the pending suspension bookkeeping entry for the removed tab id.
The query oracle is the outcome of chrome.tabs.query for the active tab of
the window.  When the window is not closing and the removed tab was the
tracked active tab, a successful query with a first result updates the
tracking entry; a successful query with no result only logs (the source
writes a removal log line but deletes nothing), and a failed query is
caught and logged. -/
def handleTabRemoved (tabId : Int) (info : RemoveInfo)
    (query : Except String (List Int)) (s : RemovalState) : RemovalState :=
  let s1 := { s with pendingSuspend := s.pendingSuspend.filter (fun t => t != tabId) }
  if !info.isWindowClosing then
    if mapGet s1.activeTabsByWindow info.windowId = some tabId then
      match query with
      | .ok (a :: _) =>
          { s1 with activeTabsByWindow := mapSet s1.activeTabsByWindow info.windowId a }
      | .ok [] => s1
      | .error _ => s1
    else s1
  else s1

/-- Claim C3: at the failing input the pending suspension bookkeeping is
purged unconditionally, and the successful requery path updates the
tracking entry, but when the requery of the host finds no active tab the
code only writes a log line and the tracking entry of the window is left
stale instead of being cleared. -/
theorem handleTabRemoved_leaves_stale_entry :
    (handleTabRemoved 10 ⟨1, false⟩ (.ok []) ⟨[(1, 10)], [10, 99]⟩).pendingSuspend
        = [99] ∧
    (handleTabRemoved 10 ⟨1, false⟩ (.ok [7]) ⟨[(1, 10)], [10]⟩).activeTabsByWindow
        = [(1, 7)] ∧
    (handleTabRemoved 10 ⟨1, false⟩ (.ok []) ⟨[(1, 10)], [10]⟩).activeTabsByWindow
        = [(1, 10)] := by
  decide

/-! ## listeners.js message router -/

/-- Modelled from the spec: the message kinds are opaque, pairwise distinct,
non empty string tags drawn from a closed set (constants.js is not under
src; the literal IS_BULK_OP_RUNNING tag and the admin tool comparisons are
in listeners.js itself).  The unknownKind constructor stands for any other
string tag. -/
inductive MsgKind
  | isBulkOpRunningQ
  | saveSettings
  | saveWhitelist
  | prefsChanged
  | suspendTab
  | unsuspendTab
  | suspendAllTabsInWindow
  | unsuspendAllTabsInWindow
  | suspendAllTabsAllSpecs
  | unsuspendAllTabsAllSpecs
  | suspendSelectedTabs
  | unsuspendSelectedTabs
  | clearFaviconCache
  | refreshAllSuspendedFavicons
  | getExtensionStats
  | getSkippedTabs
  | resetBulkOpRunning
  | unknownKind (tag : String)
deriving Repr, DecidableEq

/-- The sender.tab record: its id and windowId fields may be absent. -/
structure SenderTab where
  id : Option Int
  windowId : Option Int
deriving Repr, DecidableEq

/-- The message sender identity as listeners.js inspects it. -/
structure Sender where
  id : String
  url : Option String
  tab : Option SenderTab
deriving Repr, DecidableEq

/-- listeners.js validateMessageSender.  With requiresExtensionOrigin the
sender id must equal the runtime id and the sender url must be truthy (the
empty string is falsy) and start with the served extension origin;
otherwise the sender must carry a tab whose id is a number. -/
def validateMessageSender (runtimeId : String) (sender : Sender)
    (requiresExtensionOrigin : Bool) : Bool :=
  if requiresExtensionOrigin then
    sender.id == runtimeId &&
      (match sender.url with
       | some u => u != "" && u.startsWith ("chrome-extension://" ++ runtimeId ++ "/")
       | none => false)
  else
    (match sender.tab with
     | some tb => tb.id.isSome
     | none => false)

/-- The request payload fields the router reads.  The two payload shape
checks of the settings and whitelist handlers are carried as booleans. -/
structure Request where
  type : Option MsgKind
  tabId : Option Int
  tabIds : Option (List Int)
  windowId : Option Int
  isManual : Bool
  shouldFocus : Bool
  settingsIsObject : Bool
  whitelistIsArray : Bool
deriving Repr, DecidableEq

/-- The response values the router sends, one constructor per JSON shape
appearing in listeners.js.  statsData and skippedData stand for the success
responses of the two diagnostic handlers, whose payload contents come from
collaborators outside src. -/
inductive Resp
  | success
  | successIs (b : Bool)
  | runningIs (b : Bool)
  | okCount (count total : Nat)
  | counts (succ skip errs total : Nat)
  | statsData
  | skippedData
  | successFalse (msg : String)
  | err (msg : String)
deriving Repr, DecidableEq

/-- Side effects of the handlers: state mutations and collaborator calls.
Log output is not modelled as an effect. -/
inductive Effect
  | savePrefs
  | saveWhitelist
  | debouncedReschedule
  | scheduleAllTabs
  | reschedAutoSave
  | suspendOne (id : Int) (manual : Bool)
  | unsuspendOne (id : Int) (focus : Bool)
  | suspendWindowTabs (w : Int)
  | unsuspendWindowTabs (w : Int)
  | suspendEverything
  | unsuspendEverything
  | suspendSelected (ids : List Int)
  | unsuspendSelected (ids : List Int)
  | clearFaviconCache
  | setFaviconFlag (b : Bool)
  | broadcastFaviconProgress (running : Bool)
  | runBatchedReload
  | queryStats
  | querySkipped
  | setBulkFlag (b : Bool)
deriving Repr, DecidableEq

/-- What one handleMessage call produces: every sendResponse call appends a
response, and the effects are the mutations and collaborator calls the
dispatched handler performs. -/
structure RouterResult where
  responses : List Resp
  effects : List Effect
deriving Repr, DecidableEq

/-- Oracles for the host and collaborator interactions a dispatch can hit. -/
structure RouterEnv where
  runtimeId : String
  bulkRunning : Bool
  favRunning : Bool
  favReload : Except String Nat
  favTotal : Nat
  collabOutcome : Except String Unit
  suspendResult : Bool
  selectedCounts : Nat × Nat × Nat
  currentWindowId : Int
deriving Repr

/-- The permission denied rejection of the privileged branches. -/
def deniedResult : RouterResult := ⟨[.err "Permission denied"], []⟩

/-- listeners.js handleAsyncMessage at the abstraction boundary: the async
body either resolves to its success response having performed its effects,
or its failure is caught and answered as the bare error message (effects
are cut at the failing collaborator call). -/
def asyncBody (outcome : Except String Unit) (okResp : Resp)
    (okEffects : List Effect) : RouterResult :=
  match outcome with
  | .ok _ => ⟨[okResp], okEffects⟩
  | .error m => ⟨[.err m], []⟩

/-- Truthiness of request.type: absent or the empty string tag is falsy;
every recognized kind is a non empty constant tag. -/
def requestTypeTruthy : Option MsgKind → Bool
  | none => false
  | some (.unknownKind tag) => tag != ""
  | some _ => true

/-- JavaScript truthiness on an optional numeric field: zero and absent are
both falsy. -/
def truthyInt : Option Int → Option Int
  | some n => if n = 0 then none else some n
  | none => none

/-- listeners.js handler body for MSG_REFRESH_ALL_SUSPENDED_FAVICONS: the
durable flag gives mutual exclusion, the try finally structure resets the
flag and broadcasts completion on both the normal and the throwing exit,
and a thrown reload failure is answered by handleAsyncMessage as the bare
error message. -/
def handleRefreshFavicons (running : Bool) (reload : Except String Nat)
    (total : Nat) : Resp × List Effect :=
  if running then
    (.successFalse "Favicon refresh already running", [])
  else
    let work : List Effect :=
      [.setFaviconFlag true, .broadcastFaviconProgress true, .runBatchedReload,
       .setFaviconFlag false, .broadcastFaviconProgress false]
    match reload with
    | .ok count => (.okCount count total, work)
    | .error msg => (.err msg, work)

/-- The windowId resolution shared by the two whole window handlers:
request.windowId when truthy, else the sender tab windowId when truthy,
else the current window. -/
def resolveWindowId (env : RouterEnv) (req : Request) (sender : Sender) : Int :=
  match truthyInt req.windowId with
  | some w => w
  | none =>
    match sender.tab with
    | some tb =>
      match truthyInt tb.windowId with
      | some w => w
      | none => env.currentWindowId
    | none => env.currentWindowId

/-- listeners.js handleMessage.  The guard mirrors the source truthiness
check on the request and its type; IS_BULK_OP_RUNNING bypasses sender
validation; every case of the switch validates the sender before
dispatching, except the admin tool kinds of the default branch, which
dispatch with no sender validation at all; an unrecognized non empty type
falls through to the unknown message type response.  Handler bodies whose
work is a collaborator call outside src are abstracted through asyncBody. -/
def handleMessage (env : RouterEnv) (req : Request) (sender : Sender) :
    RouterResult :=
  if !requestTypeTruthy req.type then ⟨[.err "Invalid request"], []⟩
  else
    match req.type with
    | none => ⟨[.err "Invalid request"], []⟩
    | some kind =>
      match kind with
      | .isBulkOpRunningQ => ⟨[.runningIs env.bulkRunning], []⟩
      | .saveSettings =>
        if !validateMessageSender env.runtimeId sender true then deniedResult
        else if !req.settingsIsObject then
          ⟨[.err "Invalid settings: Expected an object"], []⟩
        else asyncBody env.collabOutcome .success [.savePrefs]
      | .saveWhitelist =>
        if !validateMessageSender env.runtimeId sender true then deniedResult
        else if !req.whitelistIsArray then
          ⟨[.err "Invalid whitelist: Expected an array"], []⟩
        else asyncBody env.collabOutcome .success [.saveWhitelist, .debouncedReschedule]
      | .prefsChanged =>
        if !validateMessageSender env.runtimeId sender true then deniedResult
        else asyncBody env.collabOutcome .success [.scheduleAllTabs, .reschedAutoSave]
      | .suspendTab =>
        let isExtensionPage := validateMessageSender env.runtimeId sender true
        let isContentScript :=
          match sender.tab with
          | some tb => (truthyInt tb.id).isSome
          | none => false
        if !isExtensionPage && !isContentScript then deniedResult
        else
          let senderTabId := match sender.tab with
            | some tb => tb.id
            | none => none
          match (truthyInt req.tabId).orElse (fun _ => truthyInt senderTabId) with
          | some tid =>
            asyncBody env.collabOutcome (.successIs env.suspendResult)
              [.suspendOne tid req.isManual]
          | none =>
            ⟨[.err "Missing tabId for suspension: request.tabId and sender.tab.id were both unavailable."], []⟩
      | .unsuspendTab =>
        if !validateMessageSender env.runtimeId sender true then deniedResult
        else
          match truthyInt req.tabId with
          | some tid =>
            asyncBody env.collabOutcome (.successIs env.suspendResult)
              [.unsuspendOne tid req.shouldFocus]
          | none => ⟨[.err "Missing tabId"], []⟩
      | .suspendAllTabsInWindow =>
        if !validateMessageSender env.runtimeId sender true then deniedResult
        else asyncBody env.collabOutcome .success
          [.suspendWindowTabs (resolveWindowId env req sender)]
      | .unsuspendAllTabsInWindow =>
        if !validateMessageSender env.runtimeId sender true then deniedResult
        else asyncBody env.collabOutcome .success
          [.unsuspendWindowTabs (resolveWindowId env req sender)]
      | .suspendAllTabsAllSpecs =>
        if !validateMessageSender env.runtimeId sender true then deniedResult
        else asyncBody env.collabOutcome .success [.suspendEverything]
      | .unsuspendAllTabsAllSpecs =>
        if !validateMessageSender env.runtimeId sender true then deniedResult
        else asyncBody env.collabOutcome .success [.unsuspendEverything]
      | .suspendSelectedTabs =>
        if !validateMessageSender env.runtimeId sender true then deniedResult
        else
          match req.tabIds with
          | some ids =>
            if ids.isEmpty then ⟨[.err "No tabIds provided"], []⟩
            else
              ⟨[.counts env.selectedCounts.1 env.selectedCounts.2.1
                  env.selectedCounts.2.2 ids.length],
               [.suspendSelected ids]⟩
          | none => ⟨[.err "No tabIds provided"], []⟩
      | .unsuspendSelectedTabs =>
        if !validateMessageSender env.runtimeId sender true then deniedResult
        else
          match req.tabIds with
          | some ids =>
            if ids.isEmpty then ⟨[.err "No tabIds provided"], []⟩
            else
              ⟨[.counts env.selectedCounts.1 env.selectedCounts.2.1
                  env.selectedCounts.2.2 ids.length],
               [.unsuspendSelected ids]⟩
          | none => ⟨[.err "No tabIds provided"], []⟩
      | .clearFaviconCache =>
        asyncBody env.collabOutcome .success [.clearFaviconCache]
      | .refreshAllSuspendedFavicons =>
        let out := handleRefreshFavicons env.favRunning env.favReload env.favTotal
        ⟨[out.1], out.2⟩
      | .getExtensionStats =>
        asyncBody env.collabOutcome .statsData [.queryStats]
      | .getSkippedTabs =>
        asyncBody env.collabOutcome .skippedData [.querySkipped]
      | .resetBulkOpRunning =>
        asyncBody env.collabOutcome .success [.setBulkFlag false]
      | .unknownKind _ => ⟨[.err "Unknown message type"], []⟩

/-- Concrete sender failing the extension origin check. -/
def strangerSender : Sender := ⟨"attacker", none, none⟩

/-- Concrete oracle environment used by counterexamples and witnesses. -/
def demoEnv : RouterEnv :=
  ⟨"extid", false, false, .ok 0, 0, .ok (), true, (0, 0, 0), 5⟩

/-- Request with every payload field absent or falsy. -/
def emptyReq : Request := ⟨none, none, none, none, false, false, false, false⟩

/-- Claim C2 counterexample: a reset-bulk-op-running request from a sender
failing the extension origin check is not answered with permission denied;
the handler runs anyway and persists the bulk flag false, so a privileged
listed admin kind has side effects for a non matching sender. -/
theorem resetBulk_skips_sender_validation :
    validateMessageSender demoEnv.runtimeId strangerSender true = false ∧
    handleMessage demoEnv { emptyReq with type := some .resetBulkOpRunning }
        strangerSender
      = ⟨[.success], [.setBulkFlag false]⟩ ∧
    handleMessage demoEnv { emptyReq with type := some .resetBulkOpRunning }
        strangerSender
      ≠ deniedResult := by
  refine ⟨rfl, rfl, by decide⟩

/-- Claim C2 amended: the privileged kinds routed through
validateMessageSender (settings, whitelist, prefs changed, whole window and
global suspend and unsuspend, selected tabs) answer permission denied with
no side effects when the sender does not resolve to the served extension
origin, but the admin tool kinds (clear-favicon-cache,
refresh-all-suspended-favicons, get-extension-stats, get-skipped-tabs,
reset-bulk-op-running) are dispatched with no sender validation and their
handlers run for any sender. -/
theorem privileged_sender_validation (env : RouterEnv) (req : Request)
    (sender : Sender)
    (hval : validateMessageSender env.runtimeId sender true = false) :
    handleMessage env { req with type := some .saveSettings } sender = deniedResult ∧
    handleMessage env { req with type := some .saveWhitelist } sender = deniedResult ∧
    handleMessage env { req with type := some .prefsChanged } sender = deniedResult ∧
    handleMessage env { req with type := some .suspendAllTabsInWindow } sender
        = deniedResult ∧
    handleMessage env { req with type := some .unsuspendAllTabsInWindow } sender
        = deniedResult ∧
    handleMessage env { req with type := some .suspendAllTabsAllSpecs } sender
        = deniedResult ∧
    handleMessage env { req with type := some .unsuspendAllTabsAllSpecs } sender
        = deniedResult ∧
    handleMessage env { req with type := some .suspendSelectedTabs } sender
        = deniedResult ∧
    handleMessage env { req with type := some .unsuspendSelectedTabs } sender
        = deniedResult ∧
    handleMessage env { req with type := some .clearFaviconCache } sender
        = asyncBody env.collabOutcome .success [.clearFaviconCache] ∧
    handleMessage env { req with type := some .refreshAllSuspendedFavicons } sender
        = ⟨[(handleRefreshFavicons env.favRunning env.favReload env.favTotal).1],
           (handleRefreshFavicons env.favRunning env.favReload env.favTotal).2⟩ ∧
    handleMessage env { req with type := some .getExtensionStats } sender
        = asyncBody env.collabOutcome .statsData [.queryStats] ∧
    handleMessage env { req with type := some .getSkippedTabs } sender
        = asyncBody env.collabOutcome .skippedData [.querySkipped] ∧
    handleMessage env { req with type := some .resetBulkOpRunning } sender
        = asyncBody env.collabOutcome .success [.setBulkFlag false] := by
  simp [handleMessage, requestTypeTruthy, hval]

/-- Claim C2 witness: the amended statement evaluated at a concrete sender
failing the origin check. -/
theorem privileged_sender_validation_witness :
    validateMessageSender demoEnv.runtimeId strangerSender true = false ∧
    handleMessage demoEnv { emptyReq with type := some .saveSettings }
        strangerSender = deniedResult :=
  ⟨by decide,
   (privileged_sender_validation demoEnv emptyReq strangerSender (by decide)).1⟩

/-- Claim C9 counterexample: the empty string type lies outside the closed
set of recognized kinds, yet the leading truthiness guard answers with the
invalid request error, not the unknown message type error. -/
theorem emptyType_gets_invalid_request :
    handleMessage demoEnv { emptyReq with type := some (.unknownKind "") }
        strangerSender
      = ⟨[.err "Invalid request"], []⟩ ∧
    handleMessage demoEnv { emptyReq with type := some (.unknownKind "") }
        strangerSender
      ≠ ⟨[.err "Unknown message type"], []⟩ := by
  refine ⟨rfl, by decide⟩

/-- Claim C9 amended: every request whose type is a non empty tag outside
the closed set of recognized kinds is answered exactly once with the
unknown message type error and nothing is thrown (the embedded router is a
total function, mirroring the source where every path calls sendResponse
exactly once and returns); a missing or empty type instead gets the invalid
request error, also exactly once. -/
theorem unknown_type_response (env : RouterEnv) (req : Request)
    (sender : Sender) (tag : String) (htag : tag ≠ "") :
    handleMessage env { req with type := some (.unknownKind tag) } sender
      = ⟨[.err "Unknown message type"], []⟩ ∧
    (handleMessage env { req with type := some (.unknownKind tag) } sender).responses.length
      = 1 ∧
    handleMessage env { req with type := none } sender
      = ⟨[.err "Invalid request"], []⟩ := by
  have ht : requestTypeTruthy (some (.unknownKind tag)) = true := by
    simp [requestTypeTruthy, htag]
  refine ⟨?_, ?_, rfl⟩ <;> simp [handleMessage, ht]

/-- Claim C9 witness: the amended statement at a concrete unrecognized tag. -/
theorem unknown_type_response_witness :
    "bogus" ≠ "" ∧
    handleMessage demoEnv { emptyReq with type := some (.unknownKind "bogus") }
        strangerSender
      = ⟨[.err "Unknown message type"], []⟩ :=
  ⟨by decide,
   (unknown_type_response demoEnv emptyReq strangerSender "bogus" (by decide)).1⟩

/-- Shape predicate of the response contract stated by claim C8: a success
with count and total, or a success false with an error message. -/
def respMatchesC8Contract : Resp → Bool
  | .okCount _ _ => true
  | .successFalse _ => true
  | _ => false

/-- Claim C8 counterexample: when the batched reload throws, the finally
block still resets the flag and broadcasts completion, but the response is
the bare error message, which is neither a success with count and total nor
a success false record. -/
theorem refreshFavicons_throw_response :
    (handleRefreshFavicons false (.error "reload failed") 5).1
        = .err "reload failed" ∧
    respMatchesC8Contract (handleRefreshFavicons false (.error "reload failed") 5).1
        = false ∧
    (handleRefreshFavicons false (.error "reload failed") 5).2
        = [.setFaviconFlag true, .broadcastFaviconProgress true, .runBatchedReload,
           .setFaviconFlag false, .broadcastFaviconProgress false] := by
  refine ⟨rfl, rfl, rfl⟩

/-- Claim C8 amended: when the durable favicon refresh flag reads true the
handler responds success false with an error and performs no effect at all,
so no reload starts; otherwise it sets the flag true, broadcasts, runs the
batched reload, and on both the normal and the throwing exit the flag is
set back to false and a completion broadcast is attempted; the response is
success with count and total on the normal exit, and the bare error message
(with no success field) when the reload throws.  The router dispatches the
refresh kind to exactly this handler. -/
theorem refreshFavicons_contract (reload : Except String Nat)
    (total count : Nat) (msg : String) (env : RouterEnv) (req : Request)
    (sender : Sender) :
    handleRefreshFavicons true reload total
        = (.successFalse "Favicon refresh already running", []) ∧
    handleRefreshFavicons false (.ok count) total
        = (.okCount count total,
           [.setFaviconFlag true, .broadcastFaviconProgress true, .runBatchedReload,
            .setFaviconFlag false, .broadcastFaviconProgress false]) ∧
    handleRefreshFavicons false (.error msg) total
        = (.err msg,
           [.setFaviconFlag true, .broadcastFaviconProgress true, .runBatchedReload,
            .setFaviconFlag false, .broadcastFaviconProgress false]) ∧
    handleMessage env { req with type := some .refreshAllSuspendedFavicons } sender
        = ⟨[(handleRefreshFavicons env.favRunning env.favReload env.favTotal).1],
           (handleRefreshFavicons env.favRunning env.favReload env.favTotal).2⟩ := by
  refine ⟨rfl, rfl, rfl, ?_⟩
  simp [handleMessage, requestTypeTruthy]

/-! ## Claim C4: listeners.js reloadSuspendedTabsBatched -/

/-- A tab descriptor as the batched reloader sees it: an id that may be
absent. -/
structure TabDesc where
  id : Option Int
deriving Repr, DecidableEq

/-- The upfront filter of the reloader: tab.id truthy and of number type,
hence a present non zero id. -/
def isValidTab (t : TabDesc) : Bool :=
  match t.id with
  | some n => n != 0
  | none => false

/-- Whether the awaited chrome.tabs.reload of the tab resolves, as given by
the reload oracle on the tab id. -/
def tabReloads (reloadOk : Int → Bool) (t : TabDesc) : Bool :=
  match t.id with
  | some n => reloadOk n
  | none => false

/-- Consecutive chunks of size n, as the loop slices them with the index
stepping by batchSize.  The fuel argument, instantiated with the list
length, totalizes the n equal zero case on which the source loop would not
terminate. -/
def chunksOfAux (n : Nat) : Nat → List α → List (List α)
  | _, [] => []
  | 0, _ :: _ => []
  | fuel + 1, x :: xs => (x :: xs).take n :: chunksOfAux n fuel ((x :: xs).drop n)

/-- The chunk list of the reloader loop. -/
def chunksOf (n : Nat) (l : List α) : List (List α) := chunksOfAux n l.length l

/-- The chunk size sequence, determined by the chunk size and the list
length alone. -/
def chunkSizesAux (n : Nat) : Nat → Nat → List Nat
  | _, 0 => []
  | 0, _ + 1 => []
  | fuel + 1, len + 1 => min n (len + 1) :: chunkSizesAux n fuel (len + 1 - n)

theorem chunksOfAux_join (n : Nat) (hn : 0 < n) :
    ∀ (fuel : Nat) (l : List α), l.length ≤ fuel →
      (chunksOfAux n fuel l).flatten = l := by
  intro fuel
  induction fuel with
  | zero =>
    intro l hl
    cases l with
    | nil => rfl
    | cons x xs => simp at hl
  | succ fuel ih =>
    intro l hl
    cases l with
    | nil => rfl
    | cons x xs =>
      have hdrop : ((x :: xs).drop n).length ≤ fuel := by
        rw [List.length_drop]
        omega
      simp only [chunksOfAux, List.flatten]
      rw [ih _ hdrop, List.take_append_drop]

theorem chunksOfAux_map_length (n : Nat) :
    ∀ (fuel : Nat) (l : List α),
      (chunksOfAux n fuel l).map List.length = chunkSizesAux n fuel l.length := by
  intro fuel
  induction fuel with
  | zero =>
    intro l
    cases l with
    | nil => rfl
    | cons x xs => rfl
  | succ fuel ih =>
    intro l
    cases l with
    | nil => rfl
    | cons x xs =>
      simp only [chunksOfAux, List.map, chunkSizesAux, List.length_cons]
      rw [List.length_take, ih ((x :: xs).drop n), List.length_drop]
      simp [List.length_cons]

theorem length_filter_partition (p : TabDesc → Bool) :
    ∀ l : List TabDesc,
      (l.filter p).length + (l.filter (fun t => !(p t))).length = l.length := by
  intro l
  induction l with
  | nil => rfl
  | cons x xs ih =>
    by_cases hx : p x = true <;> simp [List.filter, hx] <;> omega

/-- Observable outcome of the batched reloader: the processed and error
counters, and how many inter batch waits of batchDelayMs the loop slept;
the measured duration includes batchDelayMs of wall clock time for each
such wait. -/
structure BatchResult where
  processed : Nat
  errors : Nat
  interBatchWaits : Nat
deriving Repr, DecidableEq

/-- The loop of reloadSuspendedTabsBatched over the chunk list: every chunk
settles all of its members, an individual reload failure incrementing the
error counter without aborting siblings or later chunks, and between
chunks, only when more remain and batchDelayMs is positive, the loop awaits
the inter batch delay once. -/
def runBatches (reloadOk : Int → Bool) (batchDelayMs : Nat) :
    List (List TabDesc) → BatchResult
  | [] => ⟨0, 0, 0⟩
  | [c] =>
    ⟨(c.filter (tabReloads reloadOk)).length,
     (c.filter (fun t => !(tabReloads reloadOk t))).length, 0⟩
  | c :: c2 :: rest =>
    let r := runBatches reloadOk batchDelayMs (c2 :: rest)
    ⟨(c.filter (tabReloads reloadOk)).length + r.processed,
     (c.filter (fun t => !(tabReloads reloadOk t))).length + r.errors,
     (if 0 < batchDelayMs then 1 else 0) + r.interBatchWaits⟩

/-- listeners.js reloadSuspendedTabsBatched: filter upfront to descriptors
carrying a valid numeric id, slice into consecutive chunks of batchSize,
and run the chunks strictly in order.  The processed counter is the return
value of the source function.  The per tab stagger delays inside a chunk
only shape the concurrent waiting and are not observable in the counters. -/
def reloadSuspendedTabsBatched (reloadOk : Int → Bool) (tabs : List TabDesc)
    (batchSize batchDelayMs : Nat) : BatchResult :=
  runBatches reloadOk batchDelayMs (chunksOf batchSize (tabs.filter isValidTab))

theorem runBatches_spec (reloadOk : Int → Bool) (bd : Nat) :
    ∀ cs : List (List TabDesc),
      (runBatches reloadOk bd cs).processed
          = ((cs.flatten).filter (tabReloads reloadOk)).length ∧
      (runBatches reloadOk bd cs).errors
          = ((cs.flatten).filter (fun t => !(tabReloads reloadOk t))).length ∧
      (runBatches reloadOk bd cs).interBatchWaits
          = (if 0 < bd then cs.length - 1 else 0)
  | [] => by simp [runBatches]
  | [c] => by simp [runBatches]
  | c :: c2 :: rest => by
    have ih := runBatches_spec reloadOk bd (c2 :: rest)
    refine ⟨?_, ?_, ?_⟩
    · simp [runBatches, ih.1, List.filter_append]
    · simp [runBatches, ih.2.1, List.filter_append]
    · have := ih.2.2
      by_cases hbd : 0 < bd <;> simp [runBatches, this, hbd] <;> omega

/-- Claim C4: for every input descriptor sequence, positive batchSize and
inter batch delay, the reloader processed count is the number of valid
descriptors whose individual reload succeeded, the error count is the
number whose reload failed, the two partition the valid descriptors (so a
failure never aborts siblings or later chunks), and the loop sleeps the
inter batch delay exactly once per non final chunk; with seven valid
descriptors and batchSize three, the chunk sizes are 3, 3, 1 and two inter
batch waits occur, so the elapsed time is at least twice the inter batch
delay. -/
theorem reloadSuspendedTabsBatched_correct (reloadOk : Int → Bool)
    (tabs : List TabDesc) (batchSize batchDelayMs : Nat) (hbs : 0 < batchSize) :
    (reloadSuspendedTabsBatched reloadOk tabs batchSize batchDelayMs).processed
        = ((tabs.filter isValidTab).filter (tabReloads reloadOk)).length ∧
    (reloadSuspendedTabsBatched reloadOk tabs batchSize batchDelayMs).errors
        = ((tabs.filter isValidTab).filter
            (fun t => !(tabReloads reloadOk t))).length ∧
    (reloadSuspendedTabsBatched reloadOk tabs batchSize batchDelayMs).processed
        + (reloadSuspendedTabsBatched reloadOk tabs batchSize batchDelayMs).errors
        = (tabs.filter isValidTab).length ∧
    (reloadSuspendedTabsBatched reloadOk tabs batchSize batchDelayMs).interBatchWaits
        = (if 0 < batchDelayMs
           then (chunksOf batchSize (tabs.filter isValidTab)).length - 1
           else 0) ∧
    ((tabs.filter isValidTab).length = 7 → batchSize = 3 →
      ((chunksOf batchSize (tabs.filter isValidTab)).map List.length = [3, 3, 1] ∧
       (0 < batchDelayMs →
        (reloadSuspendedTabsBatched reloadOk tabs batchSize batchDelayMs).interBatchWaits
            = 2))) := by
  have hjoin : (chunksOf batchSize (tabs.filter isValidTab)).flatten
      = tabs.filter isValidTab :=
    chunksOfAux_join batchSize hbs _ _ (le_refl _)
  have hs := runBatches_spec reloadOk batchDelayMs
    (chunksOf batchSize (tabs.filter isValidTab))
  have hsizes : (chunksOf batchSize (tabs.filter isValidTab)).map List.length
      = chunkSizesAux batchSize (tabs.filter isValidTab).length
          (tabs.filter isValidTab).length :=
    chunksOfAux_map_length batchSize _ _
  refine ⟨?_, ?_, ?_, ?_, ?_⟩
  · rw [reloadSuspendedTabsBatched, hs.1, hjoin]
  · rw [reloadSuspendedTabsBatched, hs.2.1, hjoin]
  · rw [reloadSuspendedTabsBatched, hs.1, hs.2.1, hjoin]
    exact length_filter_partition _ _
  · rw [reloadSuspendedTabsBatched, hs.2.2]
  · intro h7 h3
    subst h3
    have hmap : (chunksOf 3 (tabs.filter isValidTab)).map List.length = [3, 3, 1] := by
      rw [hsizes, h7]
      rfl
    refine ⟨hmap, fun hbd => ?_⟩
    have hlen : (chunksOf 3 (tabs.filter isValidTab)).length = 3 := by
      have := congrArg List.length hmap
      simpa using this
    rw [reloadSuspendedTabsBatched, hs.2.2, hlen, if_pos hbd]

/-- Concrete descriptor sequence with seven valid ids (1 to 7) and two
invalid descriptors (absent id and id zero). -/
def demoTabs : List TabDesc :=
  [⟨some 1⟩, ⟨some 2⟩, ⟨some 3⟩, ⟨none⟩, ⟨some 4⟩, ⟨some 5⟩, ⟨some 0⟩,
   ⟨some 6⟩, ⟨some 7⟩]

/-- Concrete reload oracle failing exactly tab 4. -/
def demoReloadOk : Int → Bool := fun n => n != 4

/-- Claim C4 witness: the theorem evaluated on seven valid descriptors with
batchSize three, delay 1200 and one failing reload: six processed, one
error, and two inter batch waits. -/
theorem reloadSuspendedTabsBatched_witness :
    0 < 3 ∧
    (reloadSuspendedTabsBatched demoReloadOk demoTabs 3 1200).processed = 6 ∧
    (reloadSuspendedTabsBatched demoReloadOk demoTabs 3 1200).interBatchWaits = 2 := by
  have h := reloadSuspendedTabsBatched_correct demoReloadOk demoTabs 3 1200 (by decide)
  refine ⟨by decide, ?_, ?_⟩
  · rw [h.1]
    decide
  · exact (h.2.2.2.2 (by decide) rfl).2 (by decide)

end TheOneSuspender
